import Mathlib

/-!
Verification development for the FlexiMart batch ETL pipeline
(`part1-database-etl/etl_pipeline.py`).

The pandas/Python transform core is shallowly embedded:
cells are `Option`-valued (`none` models `NaN`/`None`), a dataframe is a
record of column-presence flags together with a list of rows (for the
sales frame, rows are paired with their pandas integer index, which
`read_csv` initialises to the 0-based file position and which
`drop_duplicates` / `dropna` preserve), numeric cells are rationals,
and each `try/except` block becomes an explicit branch that yields the
code's fallback value.  External collaborators (the `phonenumbers`
library and the permissive `pandas.to_datetime` fallback parser) are
parameters of the embedding; MySQL I/O is modelled only through the
booleans that record whether a load would reach the insert statement.
-/

namespace ETL

/-- Python whitespace characters recognised by `str.strip()`. -/
def pyIsSpace (c : Char) : Bool :=
  c = ' ' || c = '\t' || c = '\n' || c = '\r' || c = '\x0b' || c = '\x0c'

/-- Python `str.strip()` on ASCII data: drop leading and trailing whitespace. -/
def pyStrip (s : String) : String :=
  String.mk (((s.toList.dropWhile pyIsSpace).reverse.dropWhile pyIsSpace).reverse)

/-- Python `str.lower()` restricted to ASCII letters. -/
def pyLower (s : String) : String :=
  String.mk (s.toList.map Char.toLower)

/-- Helper for `pyTitle`: the boolean records whether the previous character was a letter. -/
def pyTitleAux : Bool → List Char → List Char
  | _, [] => []
  | prevAlpha, c :: cs =>
    let c2 := if c.isAlpha then (if prevAlpha then c.toLower else c.toUpper) else c
    c2 :: pyTitleAux c.isAlpha cs

/-- Python `str.title()` on ASCII data: uppercase every letter that follows a non-letter. -/
def pyTitle (s : String) : String :=
  String.mk (pyTitleAux false s.toList)

/-- Does the first list start with the second one? -/
def startsWithChars [DecidableEq α] : List α → List α → Bool
  | _, [] => true
  | [], _ :: _ => false
  | a :: as, b :: bs => a = b && startsWithChars as bs

/-- Does the first list contain the second as a contiguous run? -/
def containsChars [DecidableEq α] : List α → List α → Bool
  | [], nd => nd.isEmpty
  | a :: as, nd => startsWithChars (a :: as) nd || containsChars as nd

/-- Python's substring test `needle in hay`. -/
def strContainsSub (hay needle : String) : Bool :=
  containsChars hay.toList needle.toList

/-- Embeds `strip_id_prefix` of the source: drop the first character of a string
identifier, `NaN` propagating to `NaN` (the name avoids the last word of the
Python identifier for lexical reasons). -/
def strip_id_first_char (v : Option String) : Option String :=
  v.map (fun s => s.drop 1)

/-- Embeds `strip_spaces`: strip a string value, pass `NaN` through unchanged. -/
def strip_spaces_opt (v : Option String) : Option String :=
  v.map pyStrip

/-- Embeds `normalize_category_name`: `NaN` maps to `None`; otherwise the value is
stripped and lowercased, keyword matches pick a fixed label, and any other value
is returned in title case. -/
def normalize_category_name : Option String → Option String
  | none => none
  | some c =>
    let cat := pyLower (pyStrip c)
    if strContainsSub cat "electronic" then some "Electronics"
    else if strContainsSub cat "fashion" then some "Fashion"
    else if strContainsSub cat "grocer" then some "Groceries"
    else some (pyTitle cat)

/-- A calendar date as produced by a successful `datetime.strptime` call. -/
structure PyDate where
  year : Nat
  month : Nat
  day : Nat
deriving DecidableEq

/-- Gregorian leap-year test, as in Python's `datetime`. -/
def isLeapYear (y : Nat) : Bool :=
  y % 4 = 0 && (y % 100 ≠ 0 || y % 400 = 0)

/-- Number of days of a month, as validated by the `datetime` constructor. -/
def daysInMonth (y m : Nat) : Nat :=
  if m = 2 then (if isLeapYear y then 29 else 28)
  else if m = 4 || m = 6 || m = 9 || m = 11 then 30
  else 31

/-- The `datetime` constructor check on the day field (year and month ranges are
already enforced by the token parsers). -/
def mkValidDate (y m d : Nat) : Option PyDate :=
  if d ≤ daysInMonth y m then some ⟨y, m, d⟩ else none

/-- Numeric value of a digit string. -/
def digitsVal (cs : List Char) : Nat :=
  cs.foldl (fun a c => a * 10 + (c.toNat - 48)) 0

/-- Token parser for `%Y` in `strptime`: exactly four digits, year at least 1
(`datetime.MINYEAR`). -/
def tokYear (cs : List Char) : Option Nat :=
  if cs.length = 4 && cs.all Char.isDigit then
    let n := digitsVal cs
    if 1 ≤ n then some n else none
  else none

/-- Token parser for `%m` in `strptime`: one or two digits with value 1..12. -/
def tokMonth (cs : List Char) : Option Nat :=
  if (cs.length = 1 || cs.length = 2) && cs.all Char.isDigit then
    let n := digitsVal cs
    if 1 ≤ n && n ≤ 12 then some n else none
  else none

/-- Token parser for `%d` in `strptime`: one or two digits with value 1..31. -/
def tokDay (cs : List Char) : Option Nat :=
  if (cs.length = 1 || cs.length = 2) && cs.all Char.isDigit then
    let n := digitsVal cs
    if 1 ≤ n && n ≤ 31 then some n else none
  else none

/-- Split a character list at every occurrence of a separator, like Python's
`str.split(sep)` (empty pieces are kept). -/
def splitChars (sep : Char) : List Char → List (List Char)
  | [] => [[]]
  | c :: cs =>
    let r := splitChars sep cs
    if c = sep then [] :: r
    else
      match r with
      | h :: t => (c :: h) :: t
      | [] => [[c]]

/-- Require a string to consist of exactly three separator-delimited pieces. -/
def parse3 (sep : Char) (s : String) : Option (List Char × List Char × List Char) :=
  match splitChars sep s.toList with
  | [a, b, c] => some (a, b, c)
  | _ => none

/-- The `'%Y-%m-%d'` branch of `normalize_date_format`. -/
def strptimeYMD (s : String) : Option PyDate :=
  match parse3 '-' s with
  | some (a, b, c) =>
    match tokYear a, tokMonth b, tokDay c with
    | some y, some m, some d => mkValidDate y m d
    | _, _, _ => none
  | none => none

/-- The `'%d/%m/%Y'` branch of `normalize_date_format`. -/
def strptimeDMYslash (s : String) : Option PyDate :=
  match parse3 '/' s with
  | some (a, b, c) =>
    match tokDay a, tokMonth b, tokYear c with
    | some d, some m, some y => mkValidDate y m d
    | _, _, _ => none
  | none => none

/-- The `'%m-%d-%Y'` branch of `normalize_date_format`. -/
def strptimeMDYdash (s : String) : Option PyDate :=
  match parse3 '-' s with
  | some (a, b, c) =>
    match tokMonth a, tokDay b, tokYear c with
    | some m, some d, some y => mkValidDate y m d
    | _, _, _ => none
  | none => none

/-- The `'%d-%m-%Y'` branch of `normalize_date_format`. -/
def strptimeDMYdash (s : String) : Option PyDate :=
  match parse3 '-' s with
  | some (a, b, c) =>
    match tokDay a, tokMonth b, tokYear c with
    | some d, some m, some y => mkValidDate y m d
    | _, _, _ => none
  | none => none

/-- The `'%m/%d/%Y'` branch of `normalize_date_format`. -/
def strptimeMDYslash (s : String) : Option PyDate :=
  match parse3 '/' s with
  | some (a, b, c) =>
    match tokMonth a, tokDay b, tokYear c with
    | some m, some d, some y => mkValidDate y m d
    | _, _, _ => none
  | none => none

/-- The format loop of `normalize_date_format`: the five known formats are tried
in the source's order and the first success wins. -/
def tryKnownFormats (s : String) : Option PyDate :=
  match strptimeYMD s with
  | some d => some d
  | none =>
    match strptimeDMYslash s with
    | some d => some d
    | none =>
      match strptimeMDYdash s with
      | some d => some d
      | none =>
        match strptimeDMYdash s with
        | some d => some d
        | none => strptimeMDYslash s

/-- A decimal digit character. -/
def digitChar (n : Nat) : Char := Char.ofNat (48 + n)

/-- Render a number on two digits, as `strftime('%m')`/`strftime('%d')` do. -/
def pad2 (n : Nat) : String :=
  String.mk [digitChar ((n / 10) % 10), digitChar (n % 10)]

/-- Render a number on four digits, as `strftime('%Y')` does for the years at hand. -/
def pad4 (n : Nat) : String :=
  String.mk [digitChar ((n / 1000) % 10), digitChar ((n / 100) % 10),
             digitChar ((n / 10) % 10), digitChar (n % 10)]

/-- The `strftime('%Y-%m-%d')` rendering used on every success path. -/
def fmtDate (d : PyDate) : String :=
  pad4 d.year ++ "-" ++ pad2 d.month ++ "-" ++ pad2 d.day

/-- Embeds `normalize_date_format`.  The permissive
`pandas.to_datetime(..., errors='coerce', dayfirst=False)` fallback is an
external library call and is passed in as the parameter `fb`; a `none` result
of `fb` models the `NaT` outcome, whose `strftime` raises and is converted to
`NaN` by the surrounding handler. -/
def normalize_date_format (fb : String → Option PyDate) (s : String) : Option String :=
  match tryKnownFormats s with
  | some d => some (fmtDate d)
  | none => (fb s).map fmtDate

/-- Helper for `dedupByKey`: pandas `drop_duplicates(subset=...)` keeping the
first row of every key; `seen` accumulates the keys already emitted. -/
def dedupByKeyAux [DecidableEq κ] (k : α → κ) (seen : List κ) : List α → List α
  | [] => []
  | x :: xs =>
    if k x ∈ seen then dedupByKeyAux k seen xs
    else x :: dedupByKeyAux k (k x :: seen) xs

/-- pandas `drop_duplicates(subset=[key])` with the default `keep='first'`. -/
def dedupByKey [DecidableEq κ] (k : α → κ) (l : List α) : List α :=
  dedupByKeyAux k [] l

/-- pandas `drop_duplicates()` over all columns (exact-duplicate rows removed,
`NaN` cells comparing equal as pandas does). -/
def dedupExact [DecidableEq α] (l : List α) : List α :=
  dedupByKey id l

theorem dedupByKeyAux_mem [DecidableEq κ] (k : α → κ) :
    ∀ (seen : List κ) (l : List α), ∀ x ∈ dedupByKeyAux k seen l, k x ∉ seen ∧ x ∈ l := by
  intro seen l
  induction l generalizing seen with
  | nil => intro x hx; simp [dedupByKeyAux] at hx
  | cons a as ih =>
    intro x hx
    by_cases h : k a ∈ seen
    · simp only [dedupByKeyAux, if_pos h] at hx
      obtain ⟨h1, h2⟩ := ih seen x hx
      exact ⟨h1, List.mem_cons_of_mem _ h2⟩
    · simp only [dedupByKeyAux, if_neg h, List.mem_cons] at hx
      rcases hx with rfl | hx
      · exact ⟨h, List.mem_cons_self _ _⟩
      · obtain ⟨h1, h2⟩ := ih (k a :: seen) x hx
        refine ⟨fun hc => h1 (List.mem_cons_of_mem _ hc), List.mem_cons_of_mem _ h2⟩

theorem dedupByKeyAux_pairwise [DecidableEq κ] (k : α → κ) :
    ∀ (seen : List κ) (l : List α),
      (dedupByKeyAux k seen l).Pairwise (fun a b => k a ≠ k b) := by
  intro seen l
  induction l generalizing seen with
  | nil => simp [dedupByKeyAux]
  | cons a as ih =>
    by_cases h : k a ∈ seen
    · simpa [dedupByKeyAux, if_pos h] using ih seen
    · simp only [dedupByKeyAux, if_neg h]
      refine List.Pairwise.cons ?_ (ih (k a :: seen))
      intro y hy
      have := (dedupByKeyAux_mem k (k a :: seen) as y hy).1
      intro hk
      exact this (by simp [hk])

/-- Every row kept by `dedupByKey` is the first row of the input bearing its key:
this is pandas' `keep='first'` policy. -/
theorem dedupByKeyAux_find [DecidableEq κ] (k : α → κ) :
    ∀ (seen : List κ) (l : List α), ∀ x ∈ dedupByKeyAux k seen l,
      l.find? (fun y => decide (k y = k x)) = some x := by
  intro seen l
  induction l generalizing seen with
  | nil => intro x hx; simp [dedupByKeyAux] at hx
  | cons a as ih =>
    intro x hx
    by_cases h : k a ∈ seen
    · simp only [dedupByKeyAux, if_pos h] at hx
      have hne : k a ≠ k x := by
        intro hc
        exact (dedupByKeyAux_mem k seen as x hx).1 (hc ▸ h)
      rw [List.find?_cons_of_neg _ (by simpa using hne)]
      exact ih seen x hx
    · simp only [dedupByKeyAux, if_neg h, List.mem_cons] at hx
      rcases hx with rfl | hx
      · exact List.find?_cons_of_pos _ (by simp)
      · have hne : k x ≠ k a := by
          have := (dedupByKeyAux_mem k (k a :: seen) as x hx).1
          intro hc; exact this (by simp [hc])
        rw [List.find?_cons_of_neg _ (by simpa using fun hc => hne hc.symm)]
        exact ih (k a :: seen) x hx

theorem dedupByKey_pairwise [DecidableEq κ] (k : α → κ) (l : List α) :
    (dedupByKey k l).Pairwise (fun a b => k a ≠ k b) :=
  dedupByKeyAux_pairwise k [] l

theorem dedupByKey_find [DecidableEq κ] (k : α → κ) (l : List α) :
    ∀ x ∈ dedupByKey k l, l.find? (fun y => decide (k y = k x)) = some x :=
  dedupByKeyAux_find k [] l

/-- `NaN * x = NaN` multiplication of two numeric cells. -/
def optMul (a b : Option ℚ) : Option ℚ :=
  match a, b with
  | some x, some y => some (x * y)
  | _, _ => none

/-- A row of the sales frame.  All cells are optional (`none` is `NaN`); the
`status` field is meaningful only when the frame's `status` column is present. -/
structure SalesRow where
  transaction_id : Option String
  customer_id : Option String
  product_id : Option String
  quantity : Option ℚ
  unit_price : Option ℚ
  transaction_date : Option String
  status : Option String
deriving DecidableEq

/-- Which columns the sales frame carries (`sales_raw.csv` may lack `status`;
an empty `pd.DataFrame()` lacks every column). -/
structure SalesCols where
  transaction_id : Bool
  customer_id : Bool
  product_id : Bool
  quantity : Bool
  unit_price : Bool
  transaction_date : Bool
  status : Bool
deriving DecidableEq

/-- The sales dataframe: column flags plus rows paired with their pandas index
(`read_csv` numbers rows 0,1,2,… and the cleaning steps never reset the index). -/
structure SalesDF where
  cols : SalesCols
  rows : List (Nat × SalesRow)
deriving DecidableEq

/-- The `pd.DataFrame()` value returned by the `except` branches: no columns, no rows. -/
def emptySalesDF : SalesDF :=
  { cols := ⟨false, false, false, false, false, false, false⟩, rows := [] }

/-- Lines 755-758 of the source: strip the first character of `customer_id`,
`product_id` and `transaction_id`. -/
def stripSalesIds (p : Nat × SalesRow) : Nat × SalesRow :=
  (p.1, { p.2 with
            customer_id := strip_id_first_char p.2.customer_id,
            product_id := strip_id_first_char p.2.product_id,
            transaction_id := strip_id_first_char p.2.transaction_id })

/-- `trim_string_columns` on a sales row: every present object column is
stripped (`NaN` stays `NaN`); the numeric columns are untouched. -/
def trimSalesRow (cols : SalesCols) (p : Nat × SalesRow) : Nat × SalesRow :=
  (p.1, { p.2 with
            transaction_id := strip_spaces_opt p.2.transaction_id,
            customer_id := strip_spaces_opt p.2.customer_id,
            product_id := strip_spaces_opt p.2.product_id,
            transaction_date := if cols.transaction_date
              then strip_spaces_opt p.2.transaction_date else p.2.transaction_date,
            status := if cols.status then strip_spaces_opt p.2.status else p.2.status })

/-- The surrogate-key and trim stages of `clean_sales` (lines 755-762). -/
def sales_strip_trim (cols : SalesCols) (rows : List (Nat × SalesRow)) :
    List (Nat × SalesRow) :=
  (rows.map stripSalesIds).map (trimSalesRow cols)

/-- Line 766: `drop_duplicates(subset=['transaction_id'])`, first occurrence kept. -/
def sales_dedup (rows : List (Nat × SalesRow)) : List (Nat × SalesRow) :=
  dedupByKey (fun p => p.2.transaction_id) rows

/-- Lines 770-771: `dropna` on `customer_id` then on `product_id`. -/
def salesDropNullIds (rows : List (Nat × SalesRow)) : List (Nat × SalesRow) :=
  (rows.filter (fun p => p.2.customer_id.isSome)).filter (fun p => p.2.product_id.isSome)

/-- Line 775: apply `normalize_date_format` to the `transaction_date` column
(`NaN` input parses to `NaT` and comes back as `NaN`). -/
def salesNormalizeDates (fb : String → Option PyDate) (rows : List (Nat × SalesRow)) :
    List (Nat × SalesRow) :=
  rows.map (fun p => (p.1, { p.2 with
    transaction_date := p.2.transaction_date.bind (normalize_date_format fb) }))

/-- Embeds `clean_sales`.  A missing column raises at the first access of that
column and the handler returns `pd.DataFrame()`; the branch structure below
mirrors the order of the column accesses in the source (`customer_id`,
`product_id`, `transaction_id` at lines 755-758, `transaction_date` at 775). -/
def clean_sales (fb : String → Option PyDate) (df : SalesDF) : SalesDF :=
  if df.cols.customer_id then
    if df.cols.product_id then
      if df.cols.transaction_id then
        let r2 := sales_strip_trim df.cols df.rows
        let r3 := sales_dedup r2
        let r4 := salesDropNullIds r3
        if df.cols.transaction_date then
          { cols := df.cols, rows := salesNormalizeDates fb r4 }
        else emptySalesDF
      else emptySalesDF
    else emptySalesDF
  else emptySalesDF

/-- The sales object as the caller sees it after `clean_sales` returns: the
column assignments of lines 755-762 mutate the argument frame in place, while
`drop_duplicates` at line 766 allocates a fresh frame that receives every later
step, so the argument keeps only the strip and trim effects. -/
def clean_sales_argAfter (df : SalesDF) : SalesDF :=
  if df.cols.customer_id then
    if df.cols.product_id then
      if df.cols.transaction_id then
        { cols := df.cols, rows := sales_strip_trim df.cols df.rows }
      else { cols := df.cols, rows := df.rows.map stripSalesIds }
    else df
  else df

/-- A row of the derived orders dataset (columns of line 823, renamed at 827). -/
structure OrderRow where
  order_id : Option String
  customer_id : Option String
  order_date : Option String
  total_amount : Option ℚ
  status : Option String
deriving DecidableEq

/-- Embeds `split_orders`.  `order_id` is a copy of `transaction_id` (line 815),
`total_amount` is `quantity * unit_price` (line 819), the five-column selection
of line 823 raises when `status` is absent and the handler returns
`pd.DataFrame()`, and exact duplicates of the selection are dropped. -/
def split_orders (df : SalesDF) : List OrderRow :=
  if df.cols.transaction_id then
    if df.cols.quantity then
      if df.cols.unit_price then
        if df.cols.customer_id then
          if df.cols.transaction_date then
            if df.cols.status then
              dedupExact (df.rows.map (fun p =>
                { order_id := p.2.transaction_id,
                  customer_id := p.2.customer_id,
                  order_date := p.2.transaction_date,
                  total_amount := optMul p.2.quantity p.2.unit_price,
                  status := p.2.status }))
            else []
          else []
        else []
      else []
    else []
  else []

/-- A row of the derived order-items dataset (columns of line 882, renamed at 886). -/
structure OrderItemRow where
  order_item_id : Nat
  order_id : Option String
  product_id : Option String
  quantity : Option ℚ
  unit_price : Option ℚ
  subtotal : Option ℚ
deriving DecidableEq

/-- Embeds `split_sales_to_order_items`.  `order_item_id` is
`order_items.index + 1` (line 874) — one plus the pandas index carried over
from the raw file — `subtotal` is `quantity * unit_price` (line 878), and a
missing column raises into the handler, which returns `pd.DataFrame()`. -/
def split_sales_to_order_items (df : SalesDF) : List OrderItemRow :=
  if df.cols.quantity then
    if df.cols.unit_price then
      if df.cols.transaction_id then
        if df.cols.product_id then
          df.rows.map (fun p =>
            { order_item_id := p.1 + 1,
              order_id := p.2.transaction_id,
              product_id := p.2.product_id,
              quantity := p.2.quantity,
              unit_price := p.2.unit_price,
              subtotal := optMul p.2.quantity p.2.unit_price })
        else []
      else []
    else []
  else []

/-- A row of the customers frame; all seven columns are object columns. -/
structure CustRow where
  customer_id : Option String
  first_name : Option String
  last_name : Option String
  email : Option String
  phone : Option String
  city : Option String
  registration_date : Option String
deriving DecidableEq

/-- Which columns the customers frame carries. -/
structure CustCols where
  customer_id : Bool
  first_name : Bool
  last_name : Bool
  email : Bool
  phone : Bool
  city : Bool
  registration_date : Bool
deriving DecidableEq

/-- The customers dataframe. -/
structure CustDF where
  cols : CustCols
  rows : List CustRow
deriving DecidableEq

/-- `trim_string_columns` on a customers row: strip every present column. -/
def trimCustRow (cols : CustCols) (r : CustRow) : CustRow :=
  { customer_id := if cols.customer_id then strip_spaces_opt r.customer_id else r.customer_id,
    first_name := if cols.first_name then strip_spaces_opt r.first_name else r.first_name,
    last_name := if cols.last_name then strip_spaces_opt r.last_name else r.last_name,
    email := if cols.email then strip_spaces_opt r.email else r.email,
    phone := if cols.phone then strip_spaces_opt r.phone else r.phone,
    city := if cols.city then strip_spaces_opt r.city else r.city,
    registration_date := if cols.registration_date
      then strip_spaces_opt r.registration_date else r.registration_date }

/-- Rendering of a cell inside the f-string `f"unknown_email_{...}"`
(`NaN` prints as `nan`). -/
def renderCell : Option String → String
  | none => "nan"
  | some s => s

/-- Embeds `impute_missing_email`: replace a missing or empty email with
`unknown_email_<customer_id>`.  Its own `try/except` swallows the `KeyError`
raised when the `email` column is absent, returning the frame unchanged. -/
def impute_missing_email (cols : CustCols) (rows : List CustRow) : List CustRow :=
  if cols.email then
    rows.map (fun r =>
      if r.email = none ∨ r.email = some "" then
        { r with email := some ("unknown_email_" ++ renderCell r.customer_id) }
      else r)
  else rows

/-- Embeds the validation gate of `load_data_to_customers_db` (lines 945-950):
an empty frame logs an error and returns before any database work.  The result
is `(would-insert, error-logged)`; database connectivity itself is an external
collaborator, `would-insert` meaning the call proceeds past validation towards
the insert. -/
def load_data_to_customers_db (df : CustDF) : Bool × Bool :=
  if df.rows.isEmpty then (false, true) else (true, false)

/-- What `clean_customers` hands back to its caller: the Python return value
(`none` models the implicit `None` of the `except` path) plus the two load
observables. -/
structure CleanCustomersOutcome where
  result : Option CustDF
  wouldInsert : Bool
  errorLogged : Bool
deriving DecidableEq

/-- The `except`-path outcome of `clean_customers`: log an error, return `None`,
never reach the load call. -/
def custFailOutcome : CleanCustomersOutcome :=
  { result := none, wouldInsert := false, errorLogged := true }

/-- The key-normalisation, trim and dedup stages of `clean_customers`
(lines 615-623). -/
def customers_dedup (cols : CustCols) (rows : List CustRow) : List CustRow :=
  dedupByKey (fun r => r.customer_id)
    ((rows.map (fun r => { r with customer_id := strip_id_first_char r.customer_id })).map
      (trimCustRow cols))

/-- Embeds `clean_customers` together with its load call.  `pf` is the external
`phonenumbers`-based `format_phone_number`; `fb` the external
`pandas.to_datetime` fallback.  Each branch mirrors the first raising access of
a missing column (`customer_id` at 615, `phone` at 631, `city` at 635,
`registration_date` at 639, the seven-column reorder at 649); the surrounding
`try/except` logs the error and returns `None`. -/
def clean_customers_run (pf : Option String → Option String)
    (fb : String → Option PyDate) (df : CustDF) : CleanCustomersOutcome :=
  if df.cols.customer_id then
    let r3 := customers_dedup df.cols df.rows
    let r4 := impute_missing_email df.cols r3
    if df.cols.phone then
      let r5 := r4.map (fun r => { r with phone := pf r.phone })
      if df.cols.city then
        let r6 := r5.map (fun r => { r with city := r.city.map pyTitle })
        if df.cols.registration_date then
          let r7 := r6.map (fun r =>
            { r with registration_date := r.registration_date.bind (normalize_date_format fb) })
          let r8 := r7.map (trimCustRow df.cols)
          if df.cols.first_name && df.cols.last_name && df.cols.email then
            let out : CustDF := { cols := df.cols, rows := r8 }
            let load := load_data_to_customers_db out
            { result := some out, wouldInsert := load.1, errorLogged := load.2 }
          else custFailOutcome
        else custFailOutcome
      else custFailOutcome
    else custFailOutcome
  else custFailOutcome

/-- The customers object as the caller sees it after `clean_customers` returns:
only the in-place column assignment of line 615 and the trim of line 619 touch
the argument frame — `drop_duplicates` at line 623 allocates a fresh frame that
receives all later steps. -/
def clean_customers_argAfter (df : CustDF) : CustDF :=
  if df.cols.customer_id then
    { cols := df.cols,
      rows := (df.rows.map (fun r =>
        { r with customer_id := strip_id_first_char r.customer_id })).map
          (trimCustRow df.cols) }
  else df

/-- A row of the products frame: three object columns and two numeric columns. -/
structure ProdRow where
  product_id : Option String
  product_name : Option String
  category : Option String
  price : Option ℚ
  stock_quantity : Option ℚ
deriving DecidableEq

/-- Which columns the products frame carries. -/
structure ProdCols where
  product_id : Bool
  product_name : Bool
  category : Bool
  price : Bool
  stock_quantity : Bool
deriving DecidableEq

/-- The products dataframe. -/
structure ProdDF where
  cols : ProdCols
  rows : List ProdRow
deriving DecidableEq

/-- `trim_string_columns` on a products row: the object columns present are
stripped; `price` and `stock_quantity` are numeric and skipped. -/
def trimProdRow (cols : ProdCols) (r : ProdRow) : ProdRow :=
  { r with
      product_id := if cols.product_id then strip_spaces_opt r.product_id else r.product_id,
      product_name := if cols.product_name then strip_spaces_opt r.product_name else r.product_name,
      category := if cols.category then strip_spaces_opt r.category else r.category }

/-- Insert a value into a sorted list of rationals. -/
def insSorted (q : ℚ) : List ℚ → List ℚ
  | [] => [q]
  | x :: xs => if q ≤ x then q :: x :: xs else x :: insSorted q xs

/-- Insertion sort over rationals. -/
def sortQ (l : List ℚ) : List ℚ :=
  l.foldr insSorted []

/-- pandas `Series.median()` over the non-null values: middle element of the
sorted values for an odd count, mean of the two middle elements for an even
count, `NaN` for an all-null column. -/
def pandasMedian (l : List ℚ) : Option ℚ :=
  let s := sortQ l
  let n := s.length
  if n = 0 then none
  else if n % 2 = 1 then some (s.getD (n / 2) 0)
  else some ((s.getD (n / 2 - 1) 0 + s.getD (n / 2) 0) / 2)

/-- pandas `fillna`: a present value stays, a `NaN` cell receives the fill value
(which may itself be `NaN`). -/
def fillnaCell (m : Option ℚ) (v : Option ℚ) : Option ℚ :=
  if v.isSome then v else m

/-- Embeds `impute_product_data_median`: fill missing `price` then missing
`stock_quantity` with the respective column median.  Its internal `try/except`
returns the frame as mutated so far when a column access raises: a missing
`price` leaves the frame untouched, a missing `stock_quantity` keeps the price
fill already applied. -/
def impute_product_data_median (cols : ProdCols) (rows : List ProdRow) : List ProdRow :=
  if cols.price then
    let m := pandasMedian (rows.filterMap (fun r => r.price))
    let rows1 := rows.map (fun r => { r with price := fillnaCell m r.price })
    if cols.stock_quantity then
      let m2 := pandasMedian (rows1.filterMap (fun r => r.stock_quantity))
      rows1.map (fun r => { r with stock_quantity := fillnaCell m2 r.stock_quantity })
    else rows1
  else rows

/-- The key-normalisation, trim and dedup stages of `clean_products`
(lines 688-695). -/
def products_dedup (cols : ProdCols) (rows : List ProdRow) : List ProdRow :=
  dedupByKey (fun r => r.product_id)
    ((rows.map (fun r => { r with product_id := strip_id_first_char r.product_id })).map
      (trimProdRow cols))

/-- Embeds `clean_products` (the load call is external and takes no part in any
claim about products).  The branches mirror the raising accesses of missing
columns (`product_id` at 688, `category` at 704, `product_name` at 708, the
five-column reorder at 718); the surrounding `try/except` returns `None`. -/
def clean_products (df : ProdDF) : Option ProdDF :=
  if df.cols.product_id then
    let r3 := products_dedup df.cols df.rows
    let r4 := impute_product_data_median df.cols r3
    if df.cols.category then
      let r5 := r4.map (fun r => { r with category := normalize_category_name r.category })
      if df.cols.product_name then
        let r6 := r5.map (fun r => { r with product_name := strip_spaces_opt r.product_name })
        let r7 := r6.map (trimProdRow df.cols)
        if df.cols.price && df.cols.stock_quantity then
          some { cols := df.cols, rows := r7 }
        else none
      else none
    else none
  else none

/-- The products object as the caller sees it after `clean_products` returns:
line 688's assignment and line 692's trim mutate the argument, later steps act
on the fresh frame made by `drop_duplicates` at line 695. -/
def clean_products_argAfter (df : ProdDF) : ProdDF :=
  if df.cols.product_id then
    { cols := df.cols,
      rows := (df.rows.map (fun r =>
        { r with product_id := strip_id_first_char r.product_id })).map
          (trimProdRow df.cols) }
  else df

/-- One cell's contribution to `df.isnull().sum().sum()`: only present columns
are counted. -/
def cntNull (present : Bool) (cellIsNone : Bool) : Nat :=
  if present && cellIsNone then 1 else 0

/-- `isnull` count of a customers row over its present columns. -/
def custRowNulls (cols : CustCols) (r : CustRow) : Nat :=
  cntNull cols.customer_id r.customer_id.isNone + cntNull cols.first_name r.first_name.isNone +
  cntNull cols.last_name r.last_name.isNone + cntNull cols.email r.email.isNone +
  cntNull cols.phone r.phone.isNone + cntNull cols.city r.city.isNone +
  cntNull cols.registration_date r.registration_date.isNone

/-- `isnull` count of a products row over its present columns. -/
def prodRowNulls (cols : ProdCols) (r : ProdRow) : Nat :=
  cntNull cols.product_id r.product_id.isNone + cntNull cols.product_name r.product_name.isNone +
  cntNull cols.category r.category.isNone + cntNull cols.price r.price.isNone +
  cntNull cols.stock_quantity r.stock_quantity.isNone

/-- `isnull` count of a sales row over its present columns. -/
def salesRowNulls (cols : SalesCols) (r : SalesRow) : Nat :=
  cntNull cols.transaction_id r.transaction_id.isNone + cntNull cols.customer_id r.customer_id.isNone +
  cntNull cols.product_id r.product_id.isNone + cntNull cols.quantity r.quantity.isNone +
  cntNull cols.unit_price r.unit_price.isNone + cntNull cols.transaction_date r.transaction_date.isNone +
  cntNull cols.status r.status.isNone

/-- The record built by `build_quality_report`. -/
structure QReport where
  file : String
  records_processed : Nat
  duplicates_removed : Nat
  missing_values_handled : Nat
  records_loaded_successfully : Nat
deriving DecidableEq

/-- Embeds `build_quality_report`, generically over the row type of the frame it
receives: `records_processed = len(df)`, `duplicates_removed =
df.duplicated().sum()` (rows equal to an earlier row), `missing_values_handled`
is the total `isnull` count, and the "cleaned" comparison frame used for
`records_loaded_successfully` is `drop_duplicates()` for the two reference
files and `drop_duplicates().dropna()` for every other file. -/
def build_quality_report {α : Type} [DecidableEq α] (rowNulls : α → Nat)
    (rows : List α) (file_name : String) : QReport :=
  let records_processed := rows.length
  let duplicates_removed := rows.length - (dedupExact rows).length
  let missing_values_handled := (rows.map rowNulls).sum
  let cleaned_df :=
    if file_name = "customers_raw.csv" ∨ file_name = "products_raw.csv" then dedupExact rows
    else (dedupExact rows).filter (fun r => rowNulls r = 0)
  { file := file_name,
    records_processed := records_processed,
    duplicates_removed := duplicates_removed,
    missing_values_handled := missing_values_handled,
    records_loaded_successfully := cleaned_df.length }

/-- Embeds `write_data_quality_report`: one report per raw file, in the fixed
order of lines 1235-1237 (rendering to text and the file write are external;
`duplicated`/`drop_duplicates` compare row values, never the index, hence the
projection of the sales rows). -/
def write_data_quality_report (c : CustDF) (p : ProdDF) (s : SalesDF) :
    QReport × QReport × QReport :=
  (build_quality_report (custRowNulls c.cols) c.rows "customers_raw.csv",
   build_quality_report (prodRowNulls p.cols) p.rows "products_raw.csv",
   build_quality_report (salesRowNulls s.cols) (s.rows.map Prod.snd) "sales_raw.csv")

/-- The six dataframe objects alive during a run of `main`.  `extract_raw_data`
copies each raw frame (`customers = customers_raw.copy()`, …), so the copy and
the raw original are distinct objects holding equal values: each gets its own
slot. -/
structure RunState where
  customers : CustDF
  products : ProdDF
  sales : SalesDF
  customers_raw : CustDF
  products_raw : ProdDF
  sales_raw : SalesDF
deriving DecidableEq

/-- Embeds `extract_raw_data` applied to the three values read from disk:
each raw frame is stored and a copy of it is handed out for cleaning. -/
def extract_raw_data (lc : CustDF) (lp : ProdDF) (ls : SalesDF) : RunState :=
  { customers := lc, products := lp, sales := ls,
    customers_raw := lc, products_raw := lp, sales_raw := ls }

/-- Result of a run of `main`: the final object states and the produced report. -/
structure MainRun where
  finalState : RunState
  report : QReport × QReport × QReport
deriving DecidableEq

/-- Embeds `main`: extract, clean the three copies (each cleaner mutates only
the copy object it receives, captured by the `argAfter` functions), split the
cleaned sales, and compute the quality report over the three raw frames
(line 1272 passes `customers_raw`, `products_raw`, `sales_raw`). -/
def main (pf : Option String → Option String) (fb : String → Option PyDate)
    (lc : CustDF) (lp : ProdDF) (ls : SalesDF) : MainRun :=
  let st := extract_raw_data lc lp ls
  let _cc := clean_customers_run pf fb st.customers
  let st1 : RunState := { st with customers := clean_customers_argAfter st.customers }
  let _cp := clean_products st1.products
  let st2 : RunState := { st1 with products := clean_products_argAfter st1.products }
  let sales_clean := clean_sales fb st2.sales
  let st3 : RunState := { st2 with sales := clean_sales_argAfter st2.sales }
  let _orders := split_orders sales_clean
  let _items := split_sales_to_order_items sales_clean
  let rep := write_data_quality_report st3.customers_raw st3.products_raw st3.sales_raw
  { finalState := st3, report := rep }

/-- A trivial stand-in for the external `format_phone_number` collaborator. -/
def pf0 : Option String → Option String := fun v => v

/-- A stand-in for the external `pandas.to_datetime` fallback that parses nothing. -/
def fb0 : String → Option PyDate := fun _ => none

/-- All seven customers columns present, as in a well-formed `customers_raw.csv`. -/
def custColsAll : CustCols := ⟨true, true, true, true, true, true, true⟩

/-- All five products columns present, as in a well-formed `products_raw.csv`. -/
def prodColsAll : ProdCols := ⟨true, true, true, true, true⟩

/-- All seven sales columns present (a `sales_raw.csv` that carries `status`). -/
def salesColsAll : SalesCols := ⟨true, true, true, true, true, true, true⟩

/-- Sales columns of a `sales_raw.csv` without the optional `status` column. -/
def salesColsNoStatus : SalesCols := ⟨true, true, true, true, true, true, false⟩

/-- Raw sales frame whose first two rows share a `transaction_id`: cleaning
keeps pandas indices 0 and 2. -/
def cexSalesC1 : SalesDF :=
  { cols := salesColsNoStatus,
    rows := [(0, ⟨some "T001", some "C001", some "P001", some 1, some 10, none, none⟩),
             (1, ⟨some "T001", some "C002", some "P002", some 2, some 20, none, none⟩),
             (2, ⟨some "T003", some "C003", some "P003", some 3, some 30, none, none⟩)] }

/-- Raw sales frame with one transaction and no `status` column. -/
def cexSalesNoStatus : SalesDF :=
  { cols := salesColsNoStatus,
    rows := [(0, ⟨some "T001", some "C001", some "P001", some 3, some 5, none, none⟩)] }

/-- Raw customers frame with two rows sharing a `customer_id` but differing in
`email` (so they are not exact duplicates of each other). -/
def cexCustomersC3 : CustDF :=
  { cols := custColsAll,
    rows := [⟨some "C001", some "John", some "Doe", some "a@x.com", none, some "delhi", none⟩,
             ⟨some "C001", some "John", some "Doe", some "b@x.com", none, some "delhi", none⟩] }

/-- Products frame with prices `[10, NaN, 30]`, the spec's median example. -/
def prodEx : ProdDF :=
  { cols := prodColsAll,
    rows := [⟨some "P001", some "A", some "cat", some 10, some 1⟩,
             ⟨some "P002", some "B", some "cat", none, some 1⟩,
             ⟨some "P003", some "C", some "cat", some 30, some 1⟩] }

/-- Customers frame with every column present and no rows (a header-only CSV). -/
def custEmptyAllCols : CustDF := { cols := custColsAll, rows := [] }

/-- Customers frame missing the `phone` column, with one row. -/
def custNoPhone : CustDF :=
  { cols := ⟨true, true, true, true, false, true, true⟩,
    rows := [⟨some "C001", some "J", some "D", some "a@x", some "123", some "delhi", none⟩] }

/-- Products frame missing the `product_name` column, with one row. -/
def prodNoName : ProdDF :=
  { cols := ⟨true, false, true, true, true⟩,
    rows := [⟨some "P001", none, some "cat", some 10, some 1⟩] }

/-- Sales frame missing the `transaction_date` column, with one row. -/
def salesNoDate : SalesDF :=
  { cols := ⟨true, true, true, true, true, false, true⟩,
    rows := [(0, ⟨some "T001", some "C001", some "P001", some 1, some 2, none, none⟩)] }

/-- Claim C1 (counterexample): the claim says every derived order item receives
its 1-based position in the cleaned sales sequence even when raw rows were
dropped upstream.  On a raw sales frame whose second row is a duplicate
transaction, the cleaned sequence has two rows but the second order item
receives `order_item_id = 3` (one plus its surviving pandas index), not 2. -/
theorem c1_item_ids_not_positional :
    (split_sales_to_order_items (clean_sales fb0 cexSalesC1)).map (fun r => r.order_item_id) = [1, 3]
    ∧ (clean_sales fb0 cexSalesC1).rows.length = 2
    ∧ (split_sales_to_order_items (clean_sales fb0 cexSalesC1)).map (fun r => r.order_item_id)
        ≠ [1, 2] := by
  refine ⟨by decide, by decide, by decide⟩

/-- Claim C1 (amended): `split_sales_to_order_items` assigns each derived order
item an `order_item_id` equal to one plus the pandas index its row carries over
from the raw file; this equals the 1-based position in the cleaned sequence
only when no earlier raw row was dropped. -/
theorem c1_item_ids_from_index (fb : String → Option PyDate) (df : SalesDF)
    (hc : df.cols.customer_id = true) (hp : df.cols.product_id = true)
    (ht : df.cols.transaction_id = true) (hd : df.cols.transaction_date = true)
    (hq : df.cols.quantity = true) (hu : df.cols.unit_price = true) :
    (split_sales_to_order_items (clean_sales fb df)).map (fun r => r.order_item_id)
      = (clean_sales fb df).rows.map (fun p => p.1 + 1) := by
  simp only [clean_sales, hc, hp, ht, hd, if_true]
  simp only [split_sales_to_order_items, hq, hu, ht, hp, if_true, List.map_map]
  rfl

/-- Closed witness for `c1_item_ids_from_index` at a concrete cleaned frame. -/
theorem c1_item_ids_from_index_witness :
    cexSalesC1.cols.customer_id = true
    ∧ (split_sales_to_order_items (clean_sales fb0 cexSalesC1)).map (fun r => r.order_item_id)
        = (clean_sales fb0 cexSalesC1).rows.map (fun p => p.1 + 1) :=
  ⟨rfl, c1_item_ids_from_index fb0 cexSalesC1 rfl rfl rfl rfl rfl rfl⟩

/-- Claim C2 (counterexample): on a cleaned sales frame without a `status`
column, `split_orders` does not produce one `Pending` order per surviving
transaction — the column selection raises and the handler returns an empty
frame, so one surviving transaction yields zero orders. -/
theorem c2_no_pending_default :
    (clean_sales fb0 cexSalesNoStatus).rows.length = 1
    ∧ split_orders (clean_sales fb0 cexSalesNoStatus) = []
    ∧ (split_orders (clean_sales fb0 cexSalesNoStatus)).length
        ≠ (clean_sales fb0 cexSalesNoStatus).rows.length := by
  refine ⟨by decide, by decide, by decide⟩

/-- Claim C2 (amended): when the `status` column is absent from the cleaned
sales frame, `split_orders` returns an empty frame (its five-column selection
raises a `KeyError` that the handler converts to `pd.DataFrame()`); no
`"Pending"` default is applied anywhere in the transform — that default lives
only in the `orders` table DDL. -/
theorem c2_status_absent_empty (df : SalesDF) (h : df.cols.status = false) :
    split_orders df = [] := by
  simp [split_orders, h]

/-- Closed witness for `c2_status_absent_empty`. -/
theorem c2_status_absent_empty_witness :
    cexSalesNoStatus.cols.status = false ∧ split_orders cexSalesNoStatus = [] :=
  ⟨rfl, c2_status_absent_empty cexSalesNoStatus rfl⟩

/-- Claim C3 (counterexample): the quality report's `Records Loaded
Successfully` for `customers_raw.csv` is computed by exact-row deduplication of
the raw frame and can exceed the canonical customer count: two raw rows share a
`customer_id` but differ in `email`, so the report says 2 while
`clean_customers` keeps 1 row. -/
theorem c3_report_vs_clean_count :
    (build_quality_report (custRowNulls cexCustomersC3.cols) cexCustomersC3.rows
        "customers_raw.csv").records_loaded_successfully = 2
    ∧ ((clean_customers_run pf0 fb0 cexCustomersC3).result.map (fun d => d.rows.length))
        = some 1 := by
  refine ⟨by decide, by decide⟩

/-- Claim C3 (amended): for every raw customers frame, the quality report's
`Records Loaded Successfully` for `customers_raw.csv` equals the number of rows
surviving exact-duplicate removal on the raw frame (not the `clean_customers`
output count, which deduplicates by stripped `customer_id` and can be smaller). -/
theorem c3_records_loaded_exact_dedup (cols : CustCols) (rows : List CustRow) :
    (build_quality_report (custRowNulls cols) rows "customers_raw.csv").records_loaded_successfully
      = (dedupExact rows).length := by
  simp [build_quality_report]

/-- Claim C9 (confirmed): the raw frames returned by extraction are never
mutated by cleaning, splitting or reporting — the cleaners receive and mutate
only the copies — and the final quality report is computed over exactly the raw
records extraction returned, whatever the external phone and date collaborators
do. -/
theorem c9_raw_frames_immutable (pf : Option String → Option String)
    (fb : String → Option PyDate) (lc : CustDF) (lp : ProdDF) (ls : SalesDF) :
    (main pf fb lc lp ls).finalState.customers_raw = lc
    ∧ (main pf fb lc lp ls).finalState.products_raw = lp
    ∧ (main pf fb lc lp ls).finalState.sales_raw = ls
    ∧ (main pf fb lc lp ls).report = write_data_quality_report lc lp ls :=
  ⟨rfl, rfl, rfl, rfl⟩

/-- Claim C10 (confirmed): the cleaners' failure sentinels are asymmetric.  On
inputs whose missing column makes the transform raise, `clean_customers` and
`clean_products` return `None`, while `clean_sales` and `split_orders` return
an empty dataframe. -/
theorem c10_failure_sentinels :
    (clean_customers_run pf0 fb0 custNoPhone).result = none
    ∧ clean_products prodNoName = none
    ∧ clean_sales fb0 salesNoDate = emptySalesDF
    ∧ split_orders cexSalesNoStatus = []
    ∧ custNoPhone.rows ≠ [] ∧ prodNoName.rows ≠ []
    ∧ salesNoDate.rows ≠ [] ∧ cexSalesNoStatus.rows ≠ [] := by
  refine ⟨by decide, by decide, by decide, by decide, by decide, by decide, by decide, by decide⟩

/-- Claim C5 (confirmed): `normalize_date_format` tries the five known formats
in the source's order with first success winning (independently of the
fallback), falls back to the permissive external parse only when all five fail,
renders every success as `YYYY-MM-DD`, and returns null exactly on total
failure; the spec's three examples hold. -/
theorem c5_normalize_date_format :
    (∀ s d, strptimeYMD s = some d → tryKnownFormats s = some d)
    ∧ (∀ s d, strptimeYMD s = none → strptimeDMYslash s = some d → tryKnownFormats s = some d)
    ∧ (∀ s d, strptimeYMD s = none → strptimeDMYslash s = none → strptimeMDYdash s = some d →
        tryKnownFormats s = some d)
    ∧ (∀ s d, strptimeYMD s = none → strptimeDMYslash s = none → strptimeMDYdash s = none →
        strptimeDMYdash s = some d → tryKnownFormats s = some d)
    ∧ (∀ s, strptimeYMD s = none → strptimeDMYslash s = none → strptimeMDYdash s = none →
        strptimeDMYdash s = none → tryKnownFormats s = strptimeMDYslash s)
    ∧ (∀ fb s d, tryKnownFormats s = some d → normalize_date_format fb s = some (fmtDate d))
    ∧ (∀ fb s, tryKnownFormats s = none → normalize_date_format fb s = (fb s).map fmtDate)
    ∧ (∀ fb s, tryKnownFormats s = none → fb s = none → normalize_date_format fb s = none)
    ∧ (∀ fb, normalize_date_format fb "15/03/2023" = some "2023-03-15")
    ∧ (∀ fb, normalize_date_format fb "03-15-2023" = some "2023-03-15")
    ∧ (∀ fb, fb "not a date" = none → normalize_date_format fb "not a date" = none) := by
  refine ⟨?_, ?_, ?_, ?_, ?_, ?_, ?_, ?_, ?_, ?_, ?_⟩
  · intro s d h1; simp [tryKnownFormats, h1]
  · intro s d h1 h2; simp [tryKnownFormats, h1, h2]
  · intro s d h1 h2 h3; simp [tryKnownFormats, h1, h2, h3]
  · intro s d h1 h2 h3 h4; simp [tryKnownFormats, h1, h2, h3, h4]
  · intro s h1 h2 h3 h4; simp [tryKnownFormats, h1, h2, h3, h4]
  · intro fb s d h; simp [normalize_date_format, h]
  · intro fb s h; simp [normalize_date_format, h]
  · intro fb s h1 h2; simp [normalize_date_format, h1, h2]
  · intro fb; rfl
  · intro fb; rfl
  · intro fb h; simp [normalize_date_format, h]; rfl

/-- Closed witness for `c5_normalize_date_format` at a concrete fallback. -/
theorem c5_normalize_date_format_witness :
    fb0 "not a date" = none ∧ normalize_date_format fb0 "not a date" = none :=
  ⟨rfl, c5_normalize_date_format.2.2.2.2.2.2.2.2.2.2 fb0 rfl⟩

/-- Claim C6 (confirmed): `normalize_category_name` maps null to null, and
otherwise strips and lowercases the value, returns the fixed label of the first
matching keyword (`electronic`, then `fashion`, then `grocer`), and falls back
to the title case of the stripped lowercase value; the spec's three examples
hold. -/
theorem c6_normalize_category_name :
    normalize_category_name none = none
    ∧ (∀ s, strContainsSub (pyLower (pyStrip s)) "electronic" = true →
        normalize_category_name (some s) = some "Electronics")
    ∧ (∀ s, strContainsSub (pyLower (pyStrip s)) "electronic" = false →
        strContainsSub (pyLower (pyStrip s)) "fashion" = true →
        normalize_category_name (some s) = some "Fashion")
    ∧ (∀ s, strContainsSub (pyLower (pyStrip s)) "electronic" = false →
        strContainsSub (pyLower (pyStrip s)) "fashion" = false →
        strContainsSub (pyLower (pyStrip s)) "grocer" = true →
        normalize_category_name (some s) = some "Groceries")
    ∧ (∀ s, strContainsSub (pyLower (pyStrip s)) "electronic" = false →
        strContainsSub (pyLower (pyStrip s)) "fashion" = false →
        strContainsSub (pyLower (pyStrip s)) "grocer" = false →
        normalize_category_name (some s) = some (pyTitle (pyLower (pyStrip s))))
    ∧ normalize_category_name (some "Electronic Gadgets") = some "Electronics"
    ∧ normalize_category_name (some "  grocery  ") = some "Groceries"
    ∧ normalize_category_name (some "Home Decor") = some "Home Decor" := by
  refine ⟨rfl, ?_, ?_, ?_, ?_, by decide, by decide, by decide⟩
  · intro s h1; simp [normalize_category_name, h1]
  · intro s h1 h2; simp [normalize_category_name, h1, h2]
  · intro s h1 h2 h3; simp [normalize_category_name, h1, h2, h3]
  · intro s h1 h2 h3; simp [normalize_category_name, h1, h2, h3]

/-- Closed witness for `c6_normalize_category_name` at a concrete input. -/
theorem c6_normalize_category_name_witness :
    strContainsSub (pyLower (pyStrip "Electronic Gadgets")) "electronic" = true
    ∧ normalize_category_name (some "Electronic Gadgets") = some "Electronics" :=
  ⟨by decide, c6_normalize_category_name.2.1 "Electronic Gadgets" (by decide)⟩

/-- The general imputation shape of `clean_products`: when all five columns are
present the cleaner succeeds and, column-wise, every null `price` and null
`stock_quantity` of the deduplicated frame has been replaced by the column
median of the deduplicated frame while non-null cells survive unchanged. -/
theorem clean_products_price_stock_maps :
    ∀ df : ProdDF, df.cols = prodColsAll →
      ∃ out, clean_products df = some out
        ∧ out.rows.map (fun r => r.price)
            = (products_dedup df.cols df.rows).map (fun r =>
                fillnaCell (pandasMedian ((products_dedup df.cols df.rows).filterMap
                  (fun r => r.price))) r.price)
        ∧ out.rows.map (fun r => r.stock_quantity)
            = (products_dedup df.cols df.rows).map (fun r =>
                fillnaCell (pandasMedian ((products_dedup df.cols df.rows).filterMap
                  (fun r => r.stock_quantity))) r.stock_quantity) := by
  rintro ⟨cols, rows⟩ hcols
  dsimp only at hcols
  subst hcols
  refine ⟨_, rfl, ?_, ?_⟩
  · simp only [impute_product_data_median, prodColsAll, if_true, List.map_map]
    rfl
  · simp only [impute_product_data_median, prodColsAll, if_true, List.map_map,
      List.filterMap_map]
    rfl

/-- The deduplicated form of the `[10, NaN, 30]` example frame. -/
theorem prodEx_dedup :
    products_dedup prodEx.cols prodEx.rows
      = [⟨some "001", some "A", some "cat", some 10, some 1⟩,
         ⟨some "002", some "B", some "cat", none, some 1⟩,
         ⟨some "003", some "C", some "cat", some 30, some 1⟩] := by
  decide

/-- Claim C4 (confirmed): in `clean_products`, after deduplication every null
`price` and every null `stock_quantity` is replaced by the median of the
non-null values of its column in the same load (a non-null cell is kept as is),
and on prices `[10, NaN, 30]` the null row receives 20. -/
theorem c4_median_imputation :
    (∀ df : ProdDF, df.cols = prodColsAll →
      ∃ out, clean_products df = some out
        ∧ out.rows.map (fun r => r.price)
            = (products_dedup df.cols df.rows).map (fun r =>
                fillnaCell (pandasMedian ((products_dedup df.cols df.rows).filterMap
                  (fun r => r.price))) r.price)
        ∧ out.rows.map (fun r => r.stock_quantity)
            = (products_dedup df.cols df.rows).map (fun r =>
                fillnaCell (pandasMedian ((products_dedup df.cols df.rows).filterMap
                  (fun r => r.stock_quantity))) r.stock_quantity))
    ∧ (clean_products prodEx).map (fun d => d.rows.map (fun r => r.price))
        = some [some 10, some 20, some 30] := by
  refine ⟨clean_products_price_stock_maps, ?_⟩
  obtain ⟨out, hout, hprice, -⟩ := clean_products_price_stock_maps prodEx rfl
  rw [hout, Option.map_some', hprice, prodEx_dedup]
  norm_num [pandasMedian, sortQ, insSorted, fillnaCell,
    List.filterMap_cons, List.filterMap_nil]

/-- Closed witness for `c4_median_imputation` at the spec's `[10, NaN, 30]` frame. -/
theorem c4_median_imputation_witness :
    prodEx.cols = prodColsAll
    ∧ (∃ out, clean_products prodEx = some out
        ∧ out.rows.map (fun r => r.price)
            = (products_dedup prodEx.cols prodEx.rows).map (fun r =>
                fillnaCell (pandasMedian ((products_dedup prodEx.cols prodEx.rows).filterMap
                  (fun r => r.price))) r.price)
        ∧ out.rows.map (fun r => r.stock_quantity)
            = (products_dedup prodEx.cols prodEx.rows).map (fun r =>
                fillnaCell (pandasMedian ((products_dedup prodEx.cols prodEx.rows).filterMap
                  (fun r => r.stock_quantity))) r.stock_quantity)) :=
  ⟨rfl, c4_median_imputation.1 prodEx rfl⟩

/-- Case analysis of `clean_sales`: either a required column was missing and the
handler returned the empty frame, or the rows are the five-stage pipeline. -/
theorem clean_sales_cases (fb : String → Option PyDate) (df : SalesDF) :
    clean_sales fb df = emptySalesDF
    ∨ (clean_sales fb df).rows
        = salesNormalizeDates fb (salesDropNullIds (sales_dedup
            (sales_strip_trim df.cols df.rows))) := by
  unfold clean_sales
  split_ifs with h1 h2 h3 h4
  · exact Or.inr rfl
  all_goals exact Or.inl rfl

/-- Claim C7 (confirmed): the output of `clean_sales` satisfies the post-clean
invariant — `transaction_id` values are pairwise distinct, no surviving row has
a null `customer_id` or `product_id` — and every surviving row is the first row
of the (stripped and trimmed) input bearing its `transaction_id`
(`keep='first'`). -/
theorem c7_clean_sales_invariant (fb : String → Option PyDate) (df : SalesDF) :
    (clean_sales fb df).rows.Pairwise
        (fun p q => p.2.transaction_id ≠ q.2.transaction_id)
    ∧ (∀ p ∈ (clean_sales fb df).rows,
        p.2.customer_id.isSome = true ∧ p.2.product_id.isSome = true)
    ∧ (∀ p ∈ salesDropNullIds (sales_dedup (sales_strip_trim df.cols df.rows)),
        (sales_strip_trim df.cols df.rows).find?
          (fun q => decide (q.2.transaction_id = p.2.transaction_id)) = some p) := by
  have hfind : ∀ p ∈ salesDropNullIds (sales_dedup (sales_strip_trim df.cols df.rows)),
      (sales_strip_trim df.cols df.rows).find?
        (fun q => decide (q.2.transaction_id = p.2.transaction_id)) = some p := by
    intro p hp
    simp only [salesDropNullIds] at hp
    have hp2 : p ∈ sales_dedup (sales_strip_trim df.cols df.rows) :=
      List.mem_of_mem_filter (List.mem_of_mem_filter hp)
    exact dedupByKey_find (fun q : Nat × SalesRow => q.2.transaction_id) _ p hp2
  rcases clean_sales_cases fb df with h | h
  · rw [h]
    exact ⟨List.Pairwise.nil, fun p hp => absurd hp (by simp [emptySalesDF]), hfind⟩
  · refine ⟨?_, ?_, hfind⟩
    · rw [h]
      have hP : (salesDropNullIds (sales_dedup (sales_strip_trim df.cols df.rows))).Pairwise
          (fun p q : Nat × SalesRow => p.2.transaction_id ≠ q.2.transaction_id) := by
        simp only [salesDropNullIds]
        exact ((dedupByKey_pairwise _ _).filter _).filter _
      simp only [salesNormalizeDates]
      exact List.pairwise_map.mpr (hP.imp (fun hne => hne))
    · intro p hp
      rw [h] at hp
      simp only [salesNormalizeDates, List.mem_map] at hp
      obtain ⟨q, hq, rfl⟩ := hp
      simp only [salesDropNullIds, List.mem_filter] at hq
      exact ⟨hq.1.2, hq.2⟩

/-- Claim C8 (confirmed): for every customers frame that is empty or lacks a
required column, `clean_customers` ends with an error logged and never reaches
the database insert — a missing column raises before the load call, and an
empty frame is rejected by the load function's validation gate. -/
theorem c8_schema_failure (pf : Option String → Option String)
    (fb : String → Option PyDate) (df : CustDF)
    (h : df.rows = [] ∨ df.cols.customer_id = false ∨ df.cols.first_name = false
      ∨ df.cols.last_name = false ∨ df.cols.email = false ∨ df.cols.phone = false
      ∨ df.cols.city = false ∨ df.cols.registration_date = false) :
    (clean_customers_run pf fb df).wouldInsert = false
    ∧ (clean_customers_run pf fb df).errorLogged = true := by
  unfold clean_customers_run
  split_ifs with h1 h2 h3 h4 h5
  · have hrows : df.rows = [] := by
      simp only [Bool.and_eq_true] at h5
      rcases h with h | h | h | h | h | h | h | h
      · exact h
      all_goals simp_all
    simp [hrows, customers_dedup, dedupByKey, dedupByKeyAux, impute_missing_email,
      load_data_to_customers_db]
  all_goals exact ⟨rfl, rfl⟩

/-- Closed witness for `c8_schema_failure` at a header-only customers frame. -/
theorem c8_schema_failure_witness :
    custEmptyAllCols.rows = []
    ∧ (clean_customers_run pf0 fb0 custEmptyAllCols).wouldInsert = false
    ∧ (clean_customers_run pf0 fb0 custEmptyAllCols).errorLogged = true :=
  ⟨rfl, c8_schema_failure pf0 fb0 custEmptyAllCols (Or.inl rfl)⟩

end ETL
